import Mathlib

/-!
Shallow embedding of the productivity-tracker Chrome extension
(background script, duplicate background script, dashboard script,
and Express backend routes) for checking its specification.

JavaScript strings are modelled as Lean `String` / `List Char`;
JavaScript numbers that the code uses as integers (millisecond
timestamps, second durations, pagination counters) are modelled as
`Nat`; `Math.round` on a nonnegative quotient is modelled exactly on
`ℚ` via the floor of `x + 1/2` (JS rounds half away from zero, which
for nonnegative x is half up).
-/

namespace Tracker

/-- Boolean test that the first list starts with the second
(JS `String.prototype.startsWith`, on char lists). -/
def listStartsWith : List Char → List Char → Bool
  | _, [] => true
  | [], _ :: _ => false
  | c :: s, p :: ps => c == p && listStartsWith s ps

/-- Boolean substring containment (JS `String.prototype.includes`):
does `s` contain `pat` as a contiguous substring? -/
def listContainsSub (pat : List Char) : List Char → Bool
  | [] => listStartsWith [] pat
  | c :: rest => listStartsWith (c :: rest) pat || listContainsSub pat rest

/-- JS `s.includes(pat)` on Lean strings. -/
def strIncludes (s pat : String) : Bool :=
  listContainsSub pat.toList s.toList

/-- JS `s.startsWith(pat)` on Lean strings. -/
def strStartsWith (s pat : String) : Bool :=
  listStartsWith s.toList pat.toList

/-- JS `s.toLowerCase()` on Lean strings (per-character lowering). -/
def strToLower (s : String) : String :=
  ⟨s.toList.map Char.toLower⟩

/-- Removal of the first occurrence of `pat` (JS `s.replace(pat, "")`
with a plain-string pattern: only the first occurrence is removed;
if `pat` does not occur, the string is returned unchanged). -/
def removeFirstSub (pat : List Char) : List Char → List Char
  | [] => if listStartsWith [] pat then [] else []
  | c :: rest =>
    if listStartsWith (c :: rest) pat then (c :: rest).drop pat.length
    else c :: removeFirstSub pat rest

/-- JS `s.replace(pat, "")` on Lean strings (first occurrence only). -/
def removeFirstStr (s pat : String) : String :=
  ⟨removeFirstSub pat.toList s.toList⟩

/-- JS `s.replace(/^pat/, "")` with a literal anchored pattern:
strip `pat` only when it is a prefix of `s`. -/
def stripLeadingStr (s pat : String) : String :=
  if listStartsWith s.toList pat.toList then ⟨s.toList.drop pat.toList.length⟩ else s

/-- The three productivity categories of the schema enum. -/
inductive Category where
  | productive
  | unproductive
  | neutral
deriving DecidableEq, Repr

/-- The two membership lists stored under the `categories` key
(background script and dashboard mutations operate on this shape). -/
structure CategoriesConfig where
  productive : List String
  unproductive : List String
deriving DecidableEq, Repr

/-- Background script `getWebsiteCategory(domain)` (src/unnamed/part_000
lines 162-174): substring membership against the productive list, then
the unproductive list, else neutral.  The storage read and its error
fallback both yield a `CategoriesConfig`, passed here explicitly. -/
def getWebsiteCategory (cats : CategoriesConfig) (domain : String) : Category :=
  if cats.productive.any (fun site => strIncludes domain site) then .productive
  else if cats.unproductive.any (fun site => strIncludes domain site) then .unproductive
  else .neutral

/-- The default categories installed by `initializeStorage`
(src/unnamed/part_000 lines 14-44). -/
def defaultCategories : CategoriesConfig :=
  { productive :=
      ["github.com", "stackoverflow.com", "docs.google.com", "notion.so",
       "trello.com", "asana.com", "slack.com", "zoom.us", "figma.com",
       "codepen.io", "developer.mozilla.org", "w3schools.com"],
    unproductive :=
      ["facebook.com", "twitter.com", "instagram.com", "youtube.com",
       "reddit.com", "tiktok.com", "netflix.com", "twitch.tv",
       "pinterest.com", "snapchat.com"] }

/-- The productive keyword list of the dashboard fallback
(src/extension/dashboard/dashboard.js line 114). -/
def productiveKeywords : List String :=
  ["docs", "learn", "education", "tutorial", "course", "study", "work"]

/-- The unproductive keyword list of the dashboard fallback
(src/extension/dashboard/dashboard.js line 115). -/
def unproductiveKeywords : List String :=
  ["social", "entertainment", "game", "video", "stream"]

/-- Dashboard `categorizeWebsite(hostname)` (dashboard.js lines 109-128):
exact lookup in the per-hostname map `websiteCategories`, else keyword
fallback on the lower-cased hostname, else neutral. -/
def categorizeWebsite (websiteCategories : List (String × Category))
    (hostname : String) : Category :=
  match websiteCategories.lookup hostname with
  | some c => c
  | none =>
    let lowerHostname := strToLower hostname
    if productiveKeywords.any (fun k => strIncludes lowerHostname k) then .productive
    else if unproductiveKeywords.any (fun k => strIncludes lowerHostname k) then .unproductive
    else .neutral

/-- The tab data the tracker keeps (`currentTab` holds the chrome tab;
only `url` and `title` are read by the tracker). -/
structure Tab where
  url : String
  title : String
deriving DecidableEq, Repr

/-- The module-level mutable tracking state of the background script
(src/unnamed/part_000 lines 3-5): `currentTab`, `startTime` (ms), and
the `isTracking` flag. -/
structure TrackerState where
  isTracking : Bool
  currentTab : Option Tab
  startTime : Option Nat
deriving DecidableEq, Repr

/-- The initial state: nothing tracked. -/
def TrackerState.idle : TrackerState :=
  { isTracking := false, currentTab := none, startTime := none }

/-- A finalized session event as passed to `saveTimeEntry`
(domain, whole-second duration, url, title). -/
structure SessionEvent where
  domain : String
  timeSpent : Nat
  url : String
  title : String
deriving DecidableEq, Repr

/-- Background script `getDomain(url)` (src/unnamed/part_000 lines
177-184): parse the URL and strip a leading `www.` from the hostname
(`hostname.replace(/^www\./, "")`); on a parse failure return the raw
string.  The host-environment URL parser (`new URL(url).hostname`,
throwing on malformed input) is modelled by the `parseHost` argument:
`none` means `new URL` threw. -/
def getDomain (parseHost : String → Option String) (url : String) : String :=
  match parseHost url with
  | some hostname => stripLeadingStr hostname "www."
  | none => url

/-- Duplicate background script `getDomain(url)`
(src/extension/content/content.js part, lines 285-292): same parse, but
`hostname.replace("www.", "")` removes the first occurrence of `www.`
anywhere in the hostname. -/
def getDomainDup (parseHost : String → Option String) (url : String) : String :=
  match parseHost url with
  | some hostname => removeFirstStr hostname "www."
  | none => url

/-- Background script `stopTracking()` (src/unnamed/part_000 lines
88-103): the guard `if (!isTracking || !currentTab || !startTime) return;`
leaves everything unchanged when the flag is down, the tab is absent, or
`startTime` is falsy — which in JavaScript includes the number 0, so a
session stamped exactly at epoch 0 also early-returns, emitting nothing
and not resetting the state; otherwise compute
`timeSpent = Math.floor((now - startTime)/1000)` whole seconds, call
`saveTimeEntry` only when `timeSpent > 1`, and reset the state to idle.
The emitted event (`some e` when `saveTimeEntry` is reached) stands for
the entry forwarded to the local aggregator and the backend. -/
def stopTracking (parseHost : String → Option String) (now : Nat)
    (st : TrackerState) : TrackerState × Option SessionEvent :=
  match st.isTracking, st.currentTab, st.startTime with
  | true, some tab, some startTime =>
    if startTime = 0 then (st, none)
    else
      let timeSpent := (now - startTime) / 1000
      let domain := getDomain parseHost tab.url
      let ev := if timeSpent > 1 then
          some { domain := domain, timeSpent := timeSpent, url := tab.url, title := tab.title }
        else none
      (TrackerState.idle, ev)
  | _, _, _ => (st, none)

/-- Background script `startTracking(tab)` (src/unnamed/part_000 lines
80-85): record the tab, stamp `startTime = Date.now()`, set the flag. -/
def startTracking (now : Nat) (tab : Tab) : TrackerState :=
  { isTracking := true, currentTab := some tab, startTime := some now }

/-- Background script `handleTabChange(tabId)` (src/unnamed/part_000
lines 67-77): stop the current session, fetch the tab (`chrome.tabs.get`
may throw — modelled as `tabResult = none`, in which case the catch
block leaves the stopped state), and start tracking whenever the tab has
a nonempty URL that does not start with `chrome://` — the URL is not
parsed here, so malformed URLs still start a session. -/
def handleTabChange (parseHost : String → Option String) (now : Nat)
    (tabResult : Option Tab) (st : TrackerState) : TrackerState × Option SessionEvent :=
  let (st1, ev) := stopTracking parseHost now st
  match tabResult with
  | none => (st1, ev)
  | some tab =>
    if tab.url ≠ "" ∧ ¬ (strStartsWith tab.url "chrome://" = true) then
      (startTracking now tab, ev)
    else (st1, ev)

/-- A persisted TimeEntry as far as the queried routes read it
(src/backend/models/timeEntry.js schema): hostname, whole-second
duration, category, millisecond timestamp. -/
structure TimeEntry where
  hostname : String
  duration : Nat
  category : Category
  timestamp : Nat
deriving DecidableEq, Repr

/-- Validation outcome of the express-validator middleware
(`handleValidationErrors`, routes file lines 51-60): any failed check
yields a 400 validation error and the handler body never runs. -/
inductive ApiError where
  | validationFailed
deriving DecidableEq, Repr

/-- The pagination block returned by GET /api/time-entries
(routes file lines 101-110). -/
structure Pagination where
  currentPage : Nat
  totalPages : Nat
  totalEntries : Nat
  hasNext : Bool
  hasPrev : Bool
deriving DecidableEq, Repr

/-- The successful response of GET /api/time-entries. -/
structure ListResponse where
  entries : List TimeEntry
  pagination : Pagination
deriving DecidableEq, Repr

/-- Descending-by-timestamp comparison used by `.sort({ timestamp: -1 })`. -/
def tsDescOrder (a b : TimeEntry) : Prop := b.timestamp ≤ a.timestamp

instance : DecidableRel tsDescOrder := fun a b => Nat.decLe b.timestamp a.timestamp

/-- Mongo `.sort({ timestamp: -1 })`: the entries ordered by timestamp
descending (modelled by insertion sort under `tsDescOrder`). -/
def sortByTimestampDesc (entries : List TimeEntry) : List TimeEntry :=
  List.insertionSort tsDescOrder entries

/-- GET /api/time-entries (routes file lines 63-115) restricted to the
`page`/`limit` query parameters (the filter stage is the identity when
no filter parameters are supplied; `entries` is the filtered
collection).  The validators `page.isInt({min:1})` and
`limit.isInt({min:1,max:100})` reject out-of-range values with a 400;
otherwise `skip = (page-1)*limit`, the sorted page is returned together
with `totalPages = Math.ceil(total/limit)`,
`hasNext = skip + entries.length < total`, `hasPrev = page > 1`. -/
def listTimeEntries (entries : List TimeEntry) (page limit : Nat) :
    Except ApiError ListResponse :=
  if page < 1 ∨ limit < 1 ∨ 100 < limit then .error .validationFailed
  else
    let total := entries.length
    let skip := (page - 1) * limit
    let pageEntries := ((sortByTimestampDesc entries).drop skip).take limit
    .ok { entries := pageEntries,
          pagination :=
            { currentPage := page,
              totalPages := (total + limit - 1) / limit,
              totalEntries := total,
              hasNext := decide (skip + pageEntries.length < total),
              hasPrev := decide (1 < page) } }

/-- A bulk-insert request entry as validated by POST /api/time-entries/bulk
(routes file lines 140-147): the per-element validators require a
nonempty hostname, an integer duration at least 1, and a category from
the enum (the enum check is carried by the `Category` type). -/
structure BulkEntry where
  hostname : String
  duration : Nat
  category : Category
deriving DecidableEq, Repr

/-- The per-element validators of the bulk route. -/
def bulkEntryValid (e : BulkEntry) : Bool :=
  decide (e.hostname ≠ "") && decide (1 ≤ e.duration)

/-- POST /api/time-entries/bulk (routes file lines 140-163):
`entries` must be an array of 1 to 100 elements each passing the
per-element validators, else a 400 validation error and nothing is
persisted; on success `insertMany` persists all of them and the response
carries the created records. -/
def bulkCreate (entries : List BulkEntry) : Except ApiError (List BulkEntry) :=
  if entries.length < 1 ∨ 100 < entries.length then .error .validationFailed
  else if entries.all bulkEntryValid then .ok entries
  else .error .validationFailed

/-- Math.round on a nonnegative quotient as JS computes it: round half
away from zero, which for nonnegative input is the floor of x + 1/2. -/
def jsRound (q : ℚ) : ℤ := ⌊q + 1 / 2⌋

/-- Sum of the durations of the entries of one category — the
`totalTime` of that category's `$group` bucket in the summary pipeline
(routes file lines 217-235). -/
def categoryTotal (entries : List TimeEntry) (c : Category) : Nat :=
  ((entries.filter (fun e => e.category = c)).map TimeEntry.duration).sum

/-- The `totalTime` accumulator of GET /api/analytics/summary (routes
file lines 237-249): the category buckets' totals summed, i.e. the sum
of the durations of every matched entry. -/
def summaryTotalTime (entries : List TimeEntry) : Nat :=
  categoryTotal entries .productive + categoryTotal entries .unproductive
    + categoryTotal entries .neutral

/-- The `productiveTime` accumulator: the productive bucket's total,
`0` when no productive entry matched. -/
def summaryProductiveTime (entries : List TimeEntry) : Nat :=
  categoryTotal entries .productive

/-- The `productivityScore` of GET /api/analytics/summary (routes file
line 251): `Math.round((productiveTime / totalTime) * 100)` when
`totalTime > 0`, else `0`. -/
def productivityScore (entries : List TimeEntry) : ℤ :=
  let totalTime := summaryTotalTime entries
  let productiveTime := summaryProductiveTime entries
  if 0 < totalTime then jsRound ((productiveTime : ℚ) / (totalTime : ℚ) * 100) else 0

/-- Storage-key predicate of `cleanupOldData` (src/unnamed/part_000
lines 222-243): a key is removed when it starts with `timeData_` and the
date parsed from `key.replace("timeData_", "")` is before the cutoff.
The host-environment date parser (`new Date(s)`, yielding an invalid
date that compares false on malformed input) is modelled by `parseDate`
returning `none` on failure; time is measured in days. -/
def isExpiredKey (parseDate : String → Option Int) (cutoff : Int) (key : String) : Bool :=
  if strStartsWith key "timeData_" then
    match parseDate (removeFirstStr key "timeData_") with
    | some d => decide (d < cutoff)
    | none => false
  else false

/-- `cleanupOldData()` (src/unnamed/part_000 lines 222-243) applied to a
storage snapshot (association list of key/value pairs): with
`cutoff = now - 30` days, remove exactly the keys selected by
`isExpiredKey` and keep every other pair unchanged. -/
def cleanupOldData {V : Type} (parseDate : String → Option Int) (now : Int)
    (storage : List (String × V)) : List (String × V) :=
  storage.filter (fun kv => ¬ isExpiredKey parseDate (now - 30) kv.1)

/-- Dashboard `addWebsiteToCategory(category, website)` (dashboard.js
lines 753-772), `target = true` meaning the productive list: first
filter the website out of the other category's list, then append it to
the target list unless already present. -/
def addWebsiteToCategory (cats : CategoriesConfig) (target : Bool)
    (website : String) : CategoriesConfig :=
  if target then
    { productive :=
        if cats.productive.contains website then cats.productive
        else cats.productive ++ [website],
      unproductive := cats.unproductive.filter (fun site => ¬ site = website) }
  else
    { productive := cats.productive.filter (fun site => ¬ site = website),
      unproductive :=
        if cats.unproductive.contains website then cats.unproductive
        else cats.unproductive ++ [website] }

/-- Dashboard `removeWebsiteFromCategory(category, website)`
(dashboard.js lines 775-787): filter the website out of the named
category's list only. -/
def removeWebsiteFromCategory (cats : CategoriesConfig) (target : Bool)
    (website : String) : CategoriesConfig :=
  if target then
    { cats with productive := cats.productive.filter (fun site => ¬ site = website) }
  else
    { cats with unproductive := cats.unproductive.filter (fun site => ¬ site = website) }

/-- Disjointness invariant of the CategoryConfig: no hostname in both lists. -/
def CategoriesConfig.Disjoint (cats : CategoriesConfig) : Prop :=
  ∀ x, x ∈ cats.productive → x ∉ cats.unproductive

/-! Helper lemmas about the string primitives. -/

theorem listStartsWith_self (s : List Char) : listStartsWith s s = true := by
  induction s with
  | nil => rfl
  | cons c rest ih => simp [listStartsWith, ih]

theorem strIncludes_self (s : String) : strIncludes s s = true := by
  unfold strIncludes
  cases h : s.toList with
  | nil => simp [listContainsSub, h, listStartsWith]
  | cons c rest => simp [listContainsSub, listStartsWith_self]

theorem any_strIncludes_of_mem {l : List String} {h : String} (hm : h ∈ l) :
    l.any (fun site => strIncludes h site) = true := by
  exact List.any_eq_true.mpr ⟨h, hm, strIncludes_self h⟩

end Tracker

namespace Tracker

/-- C3, counterexample: the hostname `mylearn.io` is absent from both
default membership lists and contains the productivity keyword `learn`,
yet the background classifier `getWebsiteCategory` returns `neutral`,
not the `productive` that the claimed keyword fallback would produce —
the background classifier has no keyword fallback. -/
theorem getWebsiteCategory_no_keyword_fallback_cex :
    strIncludes "mylearn.io" "learn" = true ∧
    defaultCategories.productive.any (fun site => strIncludes "mylearn.io" site) = false ∧
    defaultCategories.unproductive.any (fun site => strIncludes "mylearn.io" site) = false ∧
    getWebsiteCategory defaultCategories "mylearn.io" ≠ Category.productive := by
  decide

/-- C3 (amended): the background classifier `getWebsiteCategory` applies
no keyword fallback — any hostname matching neither membership list is
classified `neutral`; it is the dashboard classifier `categorizeWebsite`
that, for hostnames absent from its exact-hostname category map, applies
the keyword fallback: lower-case the hostname, return `productive` on a
productivity keyword, else `unproductive` on a distraction keyword, else
`neutral`. -/
theorem keyword_fallback_location :
    (∀ (cats : CategoriesConfig) (domain : String),
      cats.productive.any (fun site => strIncludes domain site) = false →
      cats.unproductive.any (fun site => strIncludes domain site) = false →
      getWebsiteCategory cats domain = Category.neutral)
    ∧ (∀ (websiteCategories : List (String × Category)) (hostname : String),
      websiteCategories.lookup hostname = none →
      categorizeWebsite websiteCategories hostname =
        (if productiveKeywords.any (fun k => strIncludes (strToLower hostname) k) then
          Category.productive
        else if unproductiveKeywords.any (fun k => strIncludes (strToLower hostname) k) then
          Category.unproductive
        else Category.neutral)) := by
  constructor
  · intro cats domain hp hu
    simp [getWebsiteCategory, hp, hu]
  · intro websiteCategories hostname hl
    simp [categorizeWebsite, hl]

/-- C3, witness: the amended theorem applied at concrete inputs — a
hostname matching neither default list is neutral in the background
classifier, and `mylearn.io` (absent from an empty dashboard map) is
classified productive by the dashboard keyword fallback. -/
theorem keyword_fallback_location_witness :
    getWebsiteCategory defaultCategories "example.org" = Category.neutral ∧
    categorizeWebsite [] "mylearn.io" = Category.productive := by
  refine ⟨keyword_fallback_location.1 defaultCategories "example.org" (by decide) (by decide), ?_⟩
  rw [keyword_fallback_location.2 [] "mylearn.io" rfl]
  decide

/-- C4, counterexample: with config productive = [a], unproductive =
[bab], the hostname `bab` is a member of the unproductive list and not a
member of the productive list, yet it classifies as `productive`
(it contains the productive entry `a` as a substring), refuting the
claimed symmetric rule for the unproductive side. -/
theorem membership_symmetry_cex :
    "bab" ∈ (CategoriesConfig.mk ["a"] ["bab"]).unproductive ∧
    "bab" ∉ (CategoriesConfig.mk ["a"] ["bab"]).productive ∧
    getWebsiteCategory (CategoriesConfig.mk ["a"] ["bab"]) "bab" ≠ Category.unproductive := by
  decide

/-- C4 (amended): a substring match against the productive list wins
regardless of the unproductive list; with no productive match, a
substring match against the unproductive list yields `unproductive`; a
hostname that is a member of both lists — or of the productive list
alone — classifies as `productive`; and a hostname in the unproductive
list classifies as `unproductive` only provided it matches no productive
entry (list membership alone does not suffice on the unproductive side,
as the counterexample shows). -/
theorem getWebsiteCategory_priority (cats : CategoriesConfig) (h : String) :
    (cats.productive.any (fun site => strIncludes h site) = true →
      getWebsiteCategory cats h = Category.productive)
    ∧ (cats.productive.any (fun site => strIncludes h site) = false →
      cats.unproductive.any (fun site => strIncludes h site) = true →
      getWebsiteCategory cats h = Category.unproductive)
    ∧ (h ∈ cats.productive → h ∈ cats.unproductive →
      getWebsiteCategory cats h = Category.productive)
    ∧ (h ∈ cats.productive → getWebsiteCategory cats h = Category.productive)
    ∧ (cats.productive.any (fun site => strIncludes h site) = false →
      h ∈ cats.unproductive → getWebsiteCategory cats h = Category.unproductive) := by
  refine ⟨?_, ?_, ?_, ?_, ?_⟩
  · intro hp
    simp [getWebsiteCategory, hp]
  · intro hp hu
    simp [getWebsiteCategory, hp, hu]
  · intro hp _
    simp [getWebsiteCategory, any_strIncludes_of_mem hp]
  · intro hp
    simp [getWebsiteCategory, any_strIncludes_of_mem hp]
  · intro hp hu
    simp [getWebsiteCategory, hp, any_strIncludes_of_mem hu]

/-- C4, witness: the priority theorem applied to the default
configuration — `github.com` is in the productive list and classifies
productive; `facebook.com` matches no productive entry, is in the
unproductive list, and classifies unproductive. -/
theorem getWebsiteCategory_priority_witness :
    getWebsiteCategory defaultCategories "github.com" = Category.productive ∧
    getWebsiteCategory defaultCategories "facebook.com" = Category.unproductive := by
  exact ⟨(getWebsiteCategory_priority defaultCategories "github.com").2.2.2.1 (by decide),
    (getWebsiteCategory_priority defaultCategories "facebook.com").2.2.2.2 (by decide) (by decide)⟩

theorem removeFirstSub_of_startsWith {p s : List Char}
    (h : listStartsWith s p = true) : removeFirstSub p s = s.drop p.length := by
  cases s with
  | nil => simp [removeFirstSub]
  | cons c rest => simp [removeFirstSub, h]

theorem startsWith_eq_false_of_contains_eq_false {p s : List Char}
    (h : listContainsSub p s = false) : listStartsWith s p = false := by
  cases s with
  | nil => simpa [listContainsSub] using h
  | cons c rest =>
    simp only [listContainsSub, Bool.or_eq_false_iff] at h
    exact h.1

theorem removeFirstSub_of_contains_eq_false {p s : List Char}
    (h : listContainsSub p s = false) : removeFirstSub p s = s := by
  induction s with
  | nil => simp [removeFirstSub]
  | cons c rest ih =>
    simp only [listContainsSub, Bool.or_eq_false_iff] at h
    simp [removeFirstSub, h.1, ih h.2]

/-- C1, counterexample: a session open since time 1000 (ms) and closed
at time 2500 has whole-second duration `(2500 - 1000) / 1000 = 1` — at
least 1 second, so the claim requires a finalized entry — yet
`stopTracking` emits nothing, because the code's guard is the strict
`timeSpent > 1`. -/
theorem stopTracking_one_second_cex :
    1 ≤ (2500 - 1000) / 1000 ∧
    (stopTracking (fun _ => some "example.com") 2500
      ⟨true, some ⟨"https://example.com/", "Example"⟩, some 1000⟩).2 = none := by
  decide

/-- C1 (amended): on closing an open session whose start stamp is
nonzero (a zero stamp is falsy in JavaScript and makes the close a
no-op), a finalized entry is emitted to the local aggregator and remote
sync exactly when the whole-second duration `(now - startedAt) / 1000`
is strictly greater than 1 (at least 2 seconds); a shorter session
emits nothing, and in either case the state is reset to idle without
error.  The emitted entry carries the whole-second duration. -/
theorem stopTracking_emits_iff (parseHost : String → Option String)
    (now startedAt : Nat) (tab : Tab) (hs : 0 < startedAt) :
    ((stopTracking parseHost now ⟨true, some tab, some startedAt⟩).2 ≠ none ↔
      1 < (now - startedAt) / 1000)
    ∧ (stopTracking parseHost now ⟨true, some tab, some startedAt⟩).1 = TrackerState.idle
    ∧ (∀ e, (stopTracking parseHost now ⟨true, some tab, some startedAt⟩).2 = some e →
        e.timeSpent = (now - startedAt) / 1000) := by
  have hs0 : startedAt ≠ 0 := hs.ne'
  by_cases h : 1 < (now - startedAt) / 1000
  · refine ⟨by simp [stopTracking, hs0, h], by simp [stopTracking, hs0], ?_⟩
    intro e he
    simp only [stopTracking, if_neg hs0, if_pos h] at he
    cases he
    rfl
  · refine ⟨by simp [stopTracking, hs0, h], by simp [stopTracking, hs0], ?_⟩
    intro e he
    simp [stopTracking, if_neg hs0, if_neg h] at he

/-- C1, witness: a session from stamp 1000 to 4000 ms (3 whole seconds)
emits an entry, and the emitted entry carries duration 3. -/
theorem stopTracking_emits_iff_witness :
    (stopTracking (fun _ => some "example.com") 4000
      ⟨true, some ⟨"https://example.com/", "Example"⟩, some 1000⟩).2 ≠ none ∧
    (⟨"example.com", 3, "https://example.com/", "Example"⟩ : SessionEvent).timeSpent
      = (4000 - 1000) / 1000 :=
  ⟨(stopTracking_emits_iff (fun _ => some "example.com") 4000 1000
      ⟨"https://example.com/", "Example"⟩ (by decide)).1.mpr (by decide),
   (stopTracking_emits_iff (fun _ => some "example.com") 4000 1000
      ⟨"https://example.com/", "Example"⟩ (by decide)).2.2
     ⟨"example.com", 3, "https://example.com/", "Example"⟩ (by decide)⟩

/-- C8, counterexample: a focus change to a tab whose URL the parser
rejects as malformed (`parseHost` returns `none`) still starts a
session: `handleTabChange` checks only that the URL is nonempty and not
`chrome://`-prefixed, never that it parses. -/
theorem handleTabChange_malformed_cex :
    ((fun _ => (none : Option String)) "not a url" = (none : Option String)) ∧
    (handleTabChange (fun _ => none) 5 (some ⟨"not a url", "t"⟩)
      TrackerState.idle).1.isTracking = true := by
  decide

/-- C8 (amended): no transition handler throws (each is a total
function, the catch blocks absorbing tab-fetch failures), and a
malformed URL degrades only in `getDomain`, which returns the raw URL
string as an opaque domain; it does not prevent session start — any tab
whose URL is nonempty and not `chrome://`-prefixed starts a session,
parseable or not. -/
theorem handleTabChange_malformed_behavior (parseHost : String → Option String)
    (now : Nat) (tab : Tab) (st : TrackerState) :
    (tab.url ≠ "" → strStartsWith tab.url "chrome://" = false →
      (handleTabChange parseHost now (some tab) st).1 = startTracking now tab)
    ∧ (∀ u, parseHost u = none → getDomain parseHost u = u) := by
  constructor
  · intro hne hcp
    simp [handleTabChange, hne, hcp]
  · intro u hu
    simp [getDomain, hu]

/-- C8, witness: the behavior theorem applied at an unparseable URL —
the session starts anyway, and `getDomain` returns the raw string. -/
theorem handleTabChange_malformed_behavior_witness :
    (handleTabChange (fun _ => none) 5 (some ⟨"not a url", "t"⟩)
      TrackerState.idle).1 = startTracking 5 ⟨"not a url", "t"⟩ ∧
    getDomain (fun _ => (none : Option String)) "not a url" = "not a url" :=
  ⟨(handleTabChange_malformed_behavior (fun _ => none) 5 ⟨"not a url", "t"⟩
      TrackerState.idle).1 (by decide) (by decide),
   (handleTabChange_malformed_behavior (fun _ => none) 5 ⟨"not a url", "t"⟩
      TrackerState.idle).2 "not a url" rfl⟩

/-- C10, counterexample: on a URL whose hostname is
`en.www.example.com` (the parser returning that hostname, as `new URL`
does), the background `getDomain` keeps the hostname unchanged while the
duplicate removes the inner `www.`, so the two implementations disagree. -/
theorem getDomain_two_impls_cex :
    getDomain (fun _ => some "en.www.example.com") "http://en.www.example.com/"
      = "en.www.example.com" ∧
    getDomainDup (fun _ => some "en.www.example.com") "http://en.www.example.com/"
      = "en.example.com" ∧
    getDomain (fun _ => some "en.www.example.com") "http://en.www.example.com/"
      ≠ getDomainDup (fun _ => some "en.www.example.com") "http://en.www.example.com/" := by
  decide

/-- C10 (amended): the two domain extractors agree on every URL that
fails to parse, on every URL whose parsed hostname starts with `www.`,
and on every URL whose parsed hostname does not contain `www.` at all;
they can disagree exactly when `www.` first occurs strictly inside the
hostname, which the duplicate removes and the background keeps. -/
theorem getDomain_two_impls_agreement (parseHost : String → Option String) (u : String) :
    (parseHost u = none → getDomain parseHost u = getDomainDup parseHost u)
    ∧ (∀ h, parseHost u = some h → strStartsWith h "www." = true →
        getDomain parseHost u = getDomainDup parseHost u)
    ∧ (∀ h, parseHost u = some h → strIncludes h "www." = false →
        getDomain parseHost u = getDomainDup parseHost u) := by
  refine ⟨fun hn => by simp [getDomain, getDomainDup, hn], ?_, ?_⟩
  · intro h hp hw
    unfold strStartsWith at hw
    simp only [getDomain, getDomainDup, hp, stripLeadingStr, removeFirstStr, if_pos hw]
    rw [removeFirstSub_of_startsWith hw]
  · intro h hp hw
    unfold strIncludes at hw
    have hsw := startsWith_eq_false_of_contains_eq_false hw
    simp only [getDomain, getDomainDup, hp, stripLeadingStr, removeFirstStr,
      removeFirstSub_of_contains_eq_false hw, hsw]
    simp

/-- C10, witness: the agreement theorem applied at hostnames
`www.example.com` (leading `www.`) and `example.org` (no `www.`). -/
theorem getDomain_two_impls_agreement_witness :
    getDomain (fun _ => some "www.example.com") "http://www.example.com/"
      = getDomainDup (fun _ => some "www.example.com") "http://www.example.com/" ∧
    getDomain (fun _ => some "example.org") "http://example.org/"
      = getDomainDup (fun _ => some "example.org") "http://example.org/" :=
  ⟨(getDomain_two_impls_agreement (fun _ => some "www.example.com")
      "http://www.example.com/").2.1 "www.example.com" rfl (by decide),
   (getDomain_two_impls_agreement (fun _ => some "example.org")
      "http://example.org/").2.2 "example.org" rfl (by decide)⟩

/-- C9: starting from disjoint productive/unproductive lists, adding a
website to either category first filters it out of the other list and
so preserves disjointness, the added website never remains in the other
list, and removing a website (which only shrinks one list) preserves
disjointness as well — no hostname ever appears in both lists. -/
theorem category_mutations_preserve_disjoint (cats : CategoriesConfig)
    (target : Bool) (website : String) (hd : cats.Disjoint) :
    (addWebsiteToCategory cats target website).Disjoint
    ∧ (target = true → website ∉ (addWebsiteToCategory cats target website).unproductive)
    ∧ (target = false → website ∉ (addWebsiteToCategory cats target website).productive)
    ∧ (removeWebsiteFromCategory cats target website).Disjoint := by
  cases target with
  | true =>
    refine ⟨?_, ?_, by simp, ?_⟩
    · intro x hx hxu
      simp only [addWebsiteToCategory, if_pos, List.mem_filter,
        decide_eq_true_eq] at hx hxu
      by_cases hc : cats.productive.contains website
      · simp only [if_pos hc] at hx
        exact hd x hx hxu.1
      · simp only [if_neg hc, List.mem_append, List.mem_singleton] at hx
        rcases hx with hx | rfl
        · exact hd x hx hxu.1
        · exact hxu.2 rfl
    · intro _ hw
      simp only [addWebsiteToCategory, if_pos, List.mem_filter,
        decide_eq_true_eq] at hw
      exact hw.2 trivial
    · intro x hx hxu
      simp only [removeWebsiteFromCategory, if_pos, List.mem_filter] at hx
      exact hd x hx.1 hxu
  | false =>
    refine ⟨?_, by simp, ?_, ?_⟩
    · intro x hx hxu
      simp only [addWebsiteToCategory, Bool.false_eq_true, if_false, List.mem_filter,
        decide_eq_true_eq] at hx hxu
      by_cases hc : cats.unproductive.contains website
      · simp only [if_pos hc] at hxu
        exact hd x hx.1 hxu
      · simp only [if_neg hc, List.mem_append, List.mem_singleton] at hxu
        rcases hxu with hxu | rfl
        · exact hd x hx.1 hxu
        · exact hx.2 rfl
    · intro _ hw
      simp only [addWebsiteToCategory, Bool.false_eq_true, if_false, List.mem_filter,
        decide_eq_true_eq] at hw
      exact hw.2 trivial
    · intro x hx hxu
      simp only [removeWebsiteFromCategory, Bool.false_eq_true, if_false,
        List.mem_filter] at hxu
      exact hd x hx hxu.1

/-- C9, witness: the preservation theorem applied to the disjoint config
productive = [a], unproductive = [b] when adding `b` to the productive
list: the result is disjoint and `b` has left the unproductive list. -/
theorem category_mutations_preserve_disjoint_witness :
    (addWebsiteToCategory (CategoriesConfig.mk ["a"] ["b"]) true "b").Disjoint
    ∧ "b" ∉ (addWebsiteToCategory (CategoriesConfig.mk ["a"] ["b"]) true "b").unproductive :=
  ⟨(category_mutations_preserve_disjoint (CategoriesConfig.mk ["a"] ["b"]) true "b"
      (by intro x hx hxu; simp_all)).1,
   (category_mutations_preserve_disjoint (CategoriesConfig.mk ["a"] ["b"]) true "b"
      (by intro x hx hxu; simp_all)).2.1 rfl⟩

/-- C6: `cleanupOldData` at time `now` keeps a key/value pair exactly
when the key is not an expired `timeData_` day bucket (date parsed from
the key before `now - 30` days), leaving every other pair untouched with
its value, and running it twice yields the same storage as running it
once. -/
theorem cleanupOldData_exact_and_idempotent {V : Type}
    (parseDate : String → Option Int) (now : Int) (storage : List (String × V)) :
    (∀ kv, kv ∈ cleanupOldData parseDate now storage ↔
      kv ∈ storage ∧ isExpiredKey parseDate (now - 30) kv.1 = false)
    ∧ cleanupOldData parseDate now (cleanupOldData parseDate now storage)
      = cleanupOldData parseDate now storage := by
  constructor
  · intro kv
    simp [cleanupOldData, List.mem_filter]
  · simp [cleanupOldData, List.filter_filter]

/-- C7: a bulk insert of 101 entries is rejected as a validation error
(the handler body, hence `insertMany`, never runs and nothing is
persisted), while a bulk insert of exactly 100 entries each passing the
per-element validators succeeds and returns the 100 created records. -/
theorem bulkCreate_batch_limit :
    (∀ entries : List BulkEntry, entries.length = 101 →
      bulkCreate entries = Except.error ApiError.validationFailed)
    ∧ (∀ entries : List BulkEntry, entries.length = 100 →
      entries.all bulkEntryValid = true →
      ∃ created, bulkCreate entries = Except.ok created ∧ created.length = 100) := by
  constructor
  · intro entries h
    simp [bulkCreate, h]
  · intro entries h hv
    exact ⟨entries, by simp [bulkCreate, h, hv], h⟩

/-- C7, witness: 101 copies of a valid entry are rejected; 100 copies
are created and returned. -/
theorem bulkCreate_batch_limit_witness :
    bulkCreate (List.replicate 101 ⟨"github.com", 1, Category.productive⟩)
      = Except.error ApiError.validationFailed ∧
    ∃ created, bulkCreate (List.replicate 100 ⟨"github.com", 1, Category.productive⟩)
      = Except.ok created ∧ created.length = 100 :=
  ⟨bulkCreate_batch_limit.1 (List.replicate 101 ⟨"github.com", 1, Category.productive⟩)
      (by decide),
   bulkCreate_batch_limit.2 (List.replicate 100 ⟨"github.com", 1, Category.productive⟩)
      (by decide) (by decide)⟩

instance : IsTotal TimeEntry tsDescOrder :=
  ⟨fun a b => le_total b.timestamp a.timestamp⟩

instance : IsTrans TimeEntry tsDescOrder :=
  ⟨fun _ _ _ hab hbc => le_trans hbc hab⟩

theorem natCeilDiv_eq_ceil (total limit : Nat) (hl : 1 ≤ limit) :
    (((total + limit - 1) / limit : Nat) : ℤ) = ⌈(total : ℚ) / (limit : ℚ)⌉ := by
  have hl0 : 0 < limit := hl
  have hlq : (0:ℚ) < (limit:ℚ) := by exact_mod_cast hl0
  have h1 := Nat.div_add_mod (total + limit - 1) limit
  have hr := Nat.mod_lt (total + limit - 1) hl0
  set q := (total + limit - 1) / limit with hq
  set r := (total + limit - 1) % limit with hrdef
  set m := limit * q with hm
  have hA : total ≤ m := by omega
  have hB : m < total + limit := by omega
  have hAq : (total : ℚ) ≤ (limit : ℚ) * (q : ℚ) := by
    rw [hm] at hA; exact_mod_cast hA
  have hBq : (limit : ℚ) * (q : ℚ) < (total : ℚ) + (limit : ℚ) := by
    rw [hm] at hB; exact_mod_cast hB
  symm
  rw [Int.ceil_eq_iff]
  constructor
  · push_cast
    rw [lt_div_iff₀ hlq]
    linarith
  · push_cast
    rw [div_le_iff₀ hlq]
    linarith

/-- C2, counterexample: a list request with `limit = 101` is rejected
with a validation error — the limit is validated against `[1,100]` and
out-of-range values are refused, not clamped. -/
theorem listTimeEntries_clamp_cex :
    listTimeEntries [⟨"github.com", 10, Category.productive, 0⟩] 1 101
      = Except.error ApiError.validationFailed := by
  rfl

/-- C2 (amended): `limit` outside `[1,100]` (and `page < 1`) is rejected
as a validation error rather than clamped; for in-range parameters the
request succeeds, the page is `take limit` of `drop (page-1)*limit` of
the entries sorted by timestamp descending (a sorted permutation of the
collection), and the response reports `totalPages = ceil(total/limit)`,
`hasNext = skip + pageLength < total`, `hasPrev = page > 1`; in
particular with 120 entries and `limit = 50`, page 1 returns 50 entries
with `hasNext = true`, `hasPrev = false`, and page 3 returns 20 entries
with `hasNext = false`, `hasPrev = true`. -/
theorem listTimeEntries_spec (entries : List TimeEntry) (page limit : Nat)
    (hp : 1 ≤ page) (hl1 : 1 ≤ limit) (hl2 : limit ≤ 100) :
    ∃ resp, listTimeEntries entries page limit = Except.ok resp
      ∧ resp.entries = ((sortByTimestampDesc entries).drop ((page - 1) * limit)).take limit
      ∧ List.Sorted tsDescOrder (sortByTimestampDesc entries)
      ∧ (sortByTimestampDesc entries).Perm entries
      ∧ resp.pagination.currentPage = page
      ∧ resp.pagination.totalEntries = entries.length
      ∧ (resp.pagination.totalPages : ℤ) = ⌈(entries.length : ℚ) / (limit : ℚ)⌉
      ∧ resp.pagination.hasNext
        = decide ((page - 1) * limit + resp.entries.length < entries.length)
      ∧ resp.pagination.hasPrev = decide (1 < page)
      ∧ resp.entries.length = min limit (entries.length - (page - 1) * limit)
      ∧ (entries.length = 120 → limit = 50 →
          ((page = 1 → resp.entries.length = 50 ∧ resp.pagination.hasNext = true
              ∧ resp.pagination.hasPrev = false)
            ∧ (page = 3 → resp.entries.length = 20 ∧ resp.pagination.hasNext = false
              ∧ resp.pagination.hasPrev = true))) := by
  have hcond : ¬(page < 1 ∨ limit < 1 ∨ 100 < limit) := by omega
  have hlen : (((sortByTimestampDesc entries).drop ((page - 1) * limit)).take limit).length
      = min limit (entries.length - (page - 1) * limit) := by
    simp [List.length_take, List.length_drop, sortByTimestampDesc, List.length_insertionSort]
  refine ⟨_, by rw [listTimeEntries, if_neg hcond], rfl,
    List.sorted_insertionSort tsDescOrder entries,
    List.perm_insertionSort tsDescOrder entries, rfl, rfl,
    natCeilDiv_eq_ceil entries.length limit hl1, rfl, rfl, hlen, ?_⟩
  intro h120 h50
  subst h50
  constructor
  · intro hpage
    subst hpage
    refine ⟨?_, ?_, rfl⟩
    · rw [hlen, h120]
      decide
    · show decide ((1 - 1) * 50 +
        (((sortByTimestampDesc entries).drop ((1 - 1) * 50)).take 50).length
          < entries.length) = true
      rw [hlen, h120]
      decide
  · intro hpage
    subst hpage
    refine ⟨?_, ?_, rfl⟩
    · rw [hlen, h120]
      decide
    · show decide ((3 - 1) * 50 +
        (((sortByTimestampDesc entries).drop ((3 - 1) * 50)).take 50).length
          < entries.length) = false
      rw [hlen, h120]
      decide

/-- C2, witness: the pagination theorem applied to a concrete collection
of 120 entries at page 1, limit 50: the request succeeds with 50
entries, `hasNext = true`, `hasPrev = false`. -/
theorem listTimeEntries_spec_witness :
    ∃ resp, listTimeEntries
        ((List.range 120).map (fun i => ⟨"site", 1, Category.neutral, i⟩)) 1 50
      = Except.ok resp ∧ resp.entries.length = 50 ∧ resp.pagination.hasNext = true
      ∧ resp.pagination.hasPrev = false := by
  obtain ⟨resp, hok, _, _, _, _, _, _, _, _, _, hconc⟩ :=
    listTimeEntries_spec ((List.range 120).map (fun i => ⟨"site", 1, Category.neutral, i⟩))
      1 50 (by decide) (by decide) (by decide)
  have h120 : ((List.range 120).map
      (fun i => (⟨"site", 1, Category.neutral, i⟩ : TimeEntry))).length = 120 := by
    simp
  obtain ⟨h1, _⟩ := hconc h120 rfl
  obtain ⟨ha, hb, hc⟩ := h1 rfl
  exact ⟨resp, hok, ha, hb, hc⟩

theorem categoryTotal_cons (e : TimeEntry) (rest : List TimeEntry) (c : Category) :
    categoryTotal (e :: rest) c =
      (if e.category = c then e.duration else 0) + categoryTotal rest c := by
  by_cases hc : e.category = c <;> simp [categoryTotal, List.filter_cons, hc]

theorem summaryTotalTime_eq_sum (entries : List TimeEntry) :
    summaryTotalTime entries = (entries.map TimeEntry.duration).sum := by
  induction entries with
  | nil => rfl
  | cons e rest ih =>
    simp only [summaryTotalTime, categoryTotal_cons] at ih ⊢
    rcases he : e.category <;> simp [he, List.map_cons, List.sum_cons] <;> omega

theorem summaryProductiveTime_le (entries : List TimeEntry) :
    summaryProductiveTime entries ≤ summaryTotalTime entries := by
  unfold summaryProductiveTime summaryTotalTime
  omega

theorem productivityScore_bounds (entries : List TimeEntry) :
    0 ≤ productivityScore entries ∧ productivityScore entries ≤ 100 := by
  unfold productivityScore
  by_cases ht : 0 < summaryTotalTime entries
  · simp only [if_pos ht]
    have hple := summaryProductiveTime_le entries
    have htq : (0:ℚ) < (summaryTotalTime entries : ℚ) := by exact_mod_cast ht
    have hpq : ((summaryProductiveTime entries : ℚ)) ≤ (summaryTotalTime entries : ℚ) := by
      exact_mod_cast hple
    have hx0 : (0:ℚ) ≤
        (summaryProductiveTime entries : ℚ) / (summaryTotalTime entries : ℚ) * 100 := by
      positivity
    have hx1 :
        (summaryProductiveTime entries : ℚ) / (summaryTotalTime entries : ℚ) * 100 ≤ 100 := by
      have h1 : (summaryProductiveTime entries : ℚ) / (summaryTotalTime entries : ℚ) ≤ 1 :=
        (div_le_one htq).mpr hpq
      nlinarith
    constructor
    · exact Int.le_floor.mpr (by push_cast; linarith)
    · have hlt : jsRound
          ((summaryProductiveTime entries : ℚ) / (summaryTotalTime entries : ℚ) * 100)
            < 101 := by
        unfold jsRound
        exact Int.floor_lt.mpr (by push_cast; linarith)
      omega
  · simp [if_neg ht]

/-- C5: the summary's grand total is the sum of the durations of all
matched entries across the three categories; when that total is
positive, `productivityScore` is the half-up rounding of
`productiveTotal / grandTotal × 100`; the score is always an integer in
`[0,100]` and is `0` when no entries match; and on the two-entry
scenario (github.com 120s productive, facebook.com 60s unproductive) the
summary yields `totalTime = 180`, `productiveTime = 120`,
`productivityScore = 67`. -/
theorem productivityScore_spec :
    (∀ entries : List TimeEntry,
      summaryTotalTime entries = (entries.map TimeEntry.duration).sum)
    ∧ (∀ entries : List TimeEntry, 0 < summaryTotalTime entries →
      productivityScore entries =
        jsRound ((summaryProductiveTime entries : ℚ) / (summaryTotalTime entries : ℚ) * 100))
    ∧ (∀ entries : List TimeEntry,
      0 ≤ productivityScore entries ∧ productivityScore entries ≤ 100)
    ∧ productivityScore [] = 0
    ∧ summaryTotalTime [⟨"github.com", 120, Category.productive, 0⟩,
        ⟨"facebook.com", 60, Category.unproductive, 0⟩] = 180
    ∧ summaryProductiveTime [⟨"github.com", 120, Category.productive, 0⟩,
        ⟨"facebook.com", 60, Category.unproductive, 0⟩] = 120
    ∧ productivityScore [⟨"github.com", 120, Category.productive, 0⟩,
        ⟨"facebook.com", 60, Category.unproductive, 0⟩] = 67 := by
  refine ⟨summaryTotalTime_eq_sum, ?_, productivityScore_bounds, rfl, by decide, by decide, ?_⟩
  · intro entries ht
    simp [productivityScore, ht]
  · have ht : summaryTotalTime [⟨"github.com", 120, Category.productive, 0⟩,
        ⟨"facebook.com", 60, Category.unproductive, 0⟩] = 180 := by decide
    have hp : summaryProductiveTime [⟨"github.com", 120, Category.productive, 0⟩,
        ⟨"facebook.com", 60, Category.unproductive, 0⟩] = 120 := by decide
    unfold productivityScore
    rw [ht, hp]
    norm_num [jsRound, Int.floor_eq_iff]

/-- C5, witness: the spec theorem applied to the concrete two-entry
scenario (its grand total 180 is positive), giving the rounding formula
and the bounds there. -/
theorem productivityScore_spec_witness :
    productivityScore [⟨"github.com", 120, Category.productive, 0⟩,
        ⟨"facebook.com", 60, Category.unproductive, 0⟩]
      = jsRound ((summaryProductiveTime [⟨"github.com", 120, Category.productive, 0⟩,
          ⟨"facebook.com", 60, Category.unproductive, 0⟩] : ℚ)
        / (summaryTotalTime [⟨"github.com", 120, Category.productive, 0⟩,
          ⟨"facebook.com", 60, Category.unproductive, 0⟩] : ℚ) * 100)
    ∧ 0 ≤ productivityScore [⟨"github.com", 120, Category.productive, 0⟩,
        ⟨"facebook.com", 60, Category.unproductive, 0⟩] :=
  ⟨productivityScore_spec.2.1 [⟨"github.com", 120, Category.productive, 0⟩,
      ⟨"facebook.com", 60, Category.unproductive, 0⟩] (by decide),
   (productivityScore_spec.2.2.1 [⟨"github.com", 120, Category.productive, 0⟩,
      ⟨"facebook.com", 60, Category.unproductive, 0⟩]).1⟩

end Tracker
